import Mathlib

/-
Verification of the hs_bt_client streaming pipeline.

The development shallowly embeds the two near-duplicate program variants,
bt_client.py (v1) and bt_client_v2.py (v2): payload decoding, signal
classification, the producer/consumer queue, the bounded display deques,
and the per-kind CSV sinks. Timestamps are modelled as rationals supplied
to each step; byte payloads are lists of naturals.
-/

namespace BtClient

/-- Advertised name of the target peripheral (both variants). -/
def SERVER_NAME : String := "ESP_SPP_SERVER"

/-- Characteristic identifier bound to the heart-sound stream. -/
def HS_CHAR_UUID : String := "cdd4c6c4-7a3c-599b-324e-f93750d2f002"

/-- Characteristic identifier bound to the blood-pressure stream. -/
def BP_CHAR_UUID : String := "cdd4c6c4-7a3c-599b-324e-f93750d2f003"

/-- Reference voltage used for scaling raw ADC samples. -/
def VREF : ℚ := 5

/-- Capacity of each display deque in v2 (deque maxlen). -/
def MAX_DATA_LEN : ℕ := 200

/-- The closed enumeration of signal kinds (class BIOSIG in both variants). -/
inductive BIOSIG where
  | HS
  | BP
deriving DecidableEq, Repr

/-- Decoding of a notification payload: int.from_bytes with
byteorder little and signed False, over the full delivered length.
The head of the list is the least significant byte. -/
def intFromBytesLE : List ℕ → ℕ
  | [] => 0
  | b :: rest => b + 256 * intFromBytesLE rest

/-- Linear scaling applied for display: val / 4096.0 * VREF. -/
def scaledValue (raw : ℕ) : ℚ := (raw : ℚ) / 4096 * VREF

/-- Classification of the firing characteristic in the v2 callback
(bt_client_v2.py lines 91-96): HS uuid, BP uuid, otherwise None. -/
def classifySig (uuid : String) : Option BIOSIG :=
  if uuid = HS_CHAR_UUID then some BIOSIG.HS
  else if uuid = BP_CHAR_UUID then some BIOSIG.BP
  else none

/-- An item placed on the transfer queue by the v2 callback: the
classified kind (possibly None) and the decoded raw value. -/
abbrev Sample : Type := Option BIOSIG × ℕ

/-- A queue item paired with the absolute clock value read when the
consumer processes it (time.perf_counter() at line 140). -/
abbrev TimedSample : Type := Sample × ℚ

/-- The v2 notification_callback (bt_client_v2.py lines 89-98): decodes
the payload, classifies the characteristic by uuid, and enqueues exactly
one pair with queue.put_nowait. The queue is modelled as the list of
items enqueued so far, oldest first. -/
def notification_callback_v2 (channel : List Sample) (char_uuid : String)
    (data : List ℕ) : List Sample :=
  channel ++ [(classifySig char_uuid, intFromBytesLE data)]

/-- Python collections.deque(maxlen) append: the new element goes to the
right; when the deque is full the leftmost element is discarded. -/
def dequeAppend (maxlen : ℕ) (d : List α) (x : α) : List α :=
  let d2 := d ++ [x]
  if maxlen < d2.length then d2.drop (d2.length - maxlen) else d2

/-- State owned by the v2 consumer thread update_plot: the shared time
deque, the two per-kind value deques, and the two CSV sinks, each sink a
list of (delta_t, raw value) rows in write order. -/
structure PlotState where
  time_data : List ℚ
  hs_data : List ℕ
  bp_data : List ℕ
  hs_rows : List (ℚ × ℕ)
  bp_rows : List (ℚ × ℕ)
deriving DecidableEq, Repr

/-- Consumer state at thread start: empty deques, empty sinks. -/
def initPlotState : PlotState := ⟨[], [], [], [], []⟩

/-- One iteration of the v2 consumer loop body (bt_client_v2.py lines
134-152) on a dequeued item: delta_t is the current clock minus
start_time; it is appended to the shared time deque for every item; an
HS item additionally appends its value to hs_data and writes a row to
the HS sink, a BP item to bp_data and the BP sink, and a None item
touches neither value deque nor sink. -/
def update_plot_step (start_time : ℚ) (st : PlotState) (item : TimedSample) :
    PlotState :=
  let delta_t := item.2 - start_time
  let td := dequeAppend MAX_DATA_LEN st.time_data delta_t
  let val := item.1.2
  match item.1.1 with
  | some BIOSIG.HS =>
      ⟨td, dequeAppend MAX_DATA_LEN st.hs_data val, st.bp_data,
        st.hs_rows ++ [(delta_t, val)], st.bp_rows⟩
  | some BIOSIG.BP =>
      ⟨td, st.hs_data, dequeAppend MAX_DATA_LEN st.bp_data val,
        st.hs_rows, st.bp_rows ++ [(delta_t, val)]⟩
  | none => ⟨td, st.hs_data, st.bp_data, st.hs_rows, st.bp_rows⟩

/-- The v2 consumer run over a finite sequence of dequeued items, from
the initial state, with the given start_time. -/
def update_plot_run (start_time : ℚ) (items : List TimedSample) : PlotState :=
  items.foldl (update_plot_step start_time) initPlotState

/-- The snapshot handed to the renderer for the heart-sound series
(line 146): x is the shared time deque, y the scaled HS values. -/
def hs_snapshot (st : PlotState) : List ℚ × List ℚ :=
  (st.time_data, st.hs_data.map scaledValue)

/-- The snapshot handed to the renderer for the blood-pressure series
(line 151): x is the shared time deque, y the scaled BP values. -/
def bp_snapshot (st : PlotState) : List ℚ × List ℚ :=
  (st.time_data, st.bp_data.map scaledValue)

/-- Test for a timed sample carrying kind k. -/
def isSig (k : BIOSIG) (p : TimedSample) : Bool := decide (p.1.1 = some k)

/-- The subsequence of items carrying kind k, in arrival order. -/
def sigItems (k : BIOSIG) (items : List TimedSample) : List TimedSample :=
  items.filter (isSig k)

/-- The raw values of the items carrying kind k, in arrival order. -/
def sigVals (k : BIOSIG) (items : List TimedSample) : List ℕ :=
  (sigItems k items).map (fun p => p.1.2)

/-- A GATT characteristic, identified by its uuid; in v1 the callback
compares the firing characteristic against the saved hs_char and
bp_char objects. -/
structure Characteristic where
  uuid : String
deriving DecidableEq, Repr

/-- The two CSV sinks of v1, each a list of (elapsed, raw value) rows in
write order. -/
structure V1SinkState where
  hs_rows : List (ℚ × ℕ)
  bp_rows : List (ℚ × ℕ)
deriving DecidableEq, Repr

/-- The v1 notification_callback (bt_client.py lines 33-40): decodes the
payload, then writes a row for the HS characteristic and a row for the
BP characteristic; both write branches in the source target
hs_log_writer (line 40 writes the HS sink even in the BP branch). -/
def notification_callback_v1 (hs_char bp_char : Characteristic)
    (st : V1SinkState) (char : Characteristic) (data : List ℕ)
    (elapsed : ℚ) : V1SinkState :=
  let val := intFromBytesLE data
  let st1 :=
    if char = hs_char then
      ⟨st.hs_rows ++ [(elapsed, val)], st.bp_rows⟩
    else st
  if char = bp_char then
    ⟨st1.hs_rows ++ [(elapsed, val)], st1.bp_rows⟩
  else st1

/-- A discovered peripheral as seen by the scan: its advertised name. -/
structure Device where
  name : String
deriving DecidableEq, Repr

/-- The discovery loop shared by both variants (bt_client_v2.py lines
32-40, bt_client.py lines 44-50): walks the scan result and keeps the
latest device whose name equals SERVER_NAME, starting from None. -/
def discover_server (devices : List Device) : Option Device :=
  devices.foldl
    (fun server device => if device.name = SERVER_NAME then some device else server)
    none

/-- Outcome of the v2 main coroutine with respect to connecting: it
returns without connecting when discovery yields None, and otherwise
enters the BleakClient context for the found device. -/
inductive MainOutcome where
  | aborted
  | connected (d : Device)
deriving DecidableEq, Repr

/-- Control flow of main (bt_client_v2.py lines 100-107): abort on a
failed discovery, otherwise connect to the discovered device. -/
def main_v2_outcome (devices : List Device) : MainOutcome :=
  match discover_server devices with
  | none => MainOutcome.aborted
  | some d => MainOutcome.connected d

/-- Filesystem-visible and transport-visible events of a program run. -/
inductive FsEvent where
  | openSink (k : BIOSIG)
  | connect
deriving DecidableEq, Repr

/-- Sink-creation and connection events of one program run as a function
of the scan result. v1 opens both sink files at module import
(bt_client.py lines 23-27), before main ever scans; v2 opens both at
the start of the update_plot consumer thread (lines 129-133), which is
started unconditionally and never sees the scan result. In both
variants the opens therefore happen regardless of discovery, and a
connection is attempted only when discovery succeeds. -/
def program_fs_events (devices : List Device) : List FsEvent :=
  [FsEvent.openSink BIOSIG.HS, FsEvent.openSink BIOSIG.BP] ++
    (match discover_server devices with
     | none => []
     | some _ => [FsEvent.connect])

/-- State of the transfer queue (queue.Queue) together with the producer
and consumer histories: items the producer has not yet sent, the queue
contents oldest first, and the items received so far in receipt order. -/
structure ChanState where
  pending : List Sample
  queue : List Sample
  received : List Sample
deriving DecidableEq, Repr

/-- One scheduler step: a producer step performs put_nowait of the next
pending item (appending at the tail), a consumer step performs
get_nowait, which pops the head when the queue is nonempty and raises
Empty (a no-op followed by continue, line 138-139) when it is empty. -/
def chanStep (st : ChanState) (producerTurn : Bool) : ChanState :=
  if producerTurn then
    match st.pending with
    | [] => st
    | x :: rest => ⟨rest, st.queue ++ [x], st.received⟩
  else
    match st.queue with
    | [] => st
    | x :: rest => ⟨st.pending, rest, st.received ++ [x]⟩

/-- Run of the channel under an arbitrary interleaving of producer and
consumer steps, from an empty queue, with the producer set to send the
given items in order. -/
def chanRun (sent : List Sample) (sched : List Bool) : ChanState :=
  sched.foldl chanStep ⟨sent, [], []⟩

/-- The elapsed time v2 attaches to a consumed item (lines 124 and 140):
the clock at consumption minus start_time, where start_time is read at
the entry of the update_plot consumer thread. -/
def v2_elapsed (consumer_start t : ℚ) : ℚ := t - consumer_start

/-- Modelled from the spec: elapsed_seconds measured from session start,
defined as the time of the first successful subscription (the missing
part is the claimed origin of the measurement, which in the v2 source
is the consumer thread's entry instead). -/
def spec_elapsed (subscription_time t : ℚ) : ℚ := t - subscription_time

/-- Concrete consumer input: five HS readings followed by three BP
readings, arriving at clock values 1 through 8. -/
def fiveHsThreeBp : List TimedSample :=
  [((some BIOSIG.HS, 1), 1), ((some BIOSIG.HS, 2), 2), ((some BIOSIG.HS, 3), 3),
   ((some BIOSIG.HS, 4), 4), ((some BIOSIG.HS, 5), 5),
   ((some BIOSIG.BP, 6), 6), ((some BIOSIG.BP, 7), 7), ((some BIOSIG.BP, 8), 8)]

/-- The two signal kinds are distinct. -/
theorem hs_ne_bp : BIOSIG.HS ≠ BIOSIG.BP := by decide

/-- The two signal kinds are distinct (symmetric form). -/
theorem bp_ne_hs : BIOSIG.BP ≠ BIOSIG.HS := by decide

/-- Folding deque appends from an empty deque keeps the suffix of the
pushed values that fits the capacity: exactly the input with all but the
last m elements dropped. -/
theorem foldl_dequeAppend_nil {α : Type} (m : ℕ) (xs : List α) :
    List.foldl (dequeAppend m) [] xs = xs.drop (xs.length - m) := by
  induction xs using List.reverseRecOn with
  | nil => simp
  | append_singleton ys x ih =>
    rw [List.foldl_append, List.foldl_cons, List.foldl_nil, ih]
    simp only [dequeAppend]
    have hrx : ys.drop (ys.length - m) ++ [x] = (ys ++ [x]).drop (ys.length - m) :=
      (List.drop_append_of_le_length (by omega)).symm
    by_cases hc : m < (ys.drop (ys.length - m) ++ [x]).length
    · rw [if_pos hc, hrx, List.drop_drop]
      congr 1
      simp only [List.length_append, List.length_drop, List.length_cons,
        List.length_nil] at hc ⊢
      omega
    · rw [if_neg hc, hrx]
      simp only [List.length_append, List.length_drop, List.length_cons,
        List.length_nil] at hc
      have h0 : ys.length - m = 0 := by omega
      have h1 : (ys ++ [x]).length - m = 0 := by
        simp only [List.length_append, List.length_cons, List.length_nil]
        omega
      rw [h0, h1]

/-- Closed form of the v2 consumer fold: the shared time deque collects
every item's delta, each per-kind value deque collects only that kind's
values, and each sink collects only that kind's (delta, value) rows. -/
theorem update_plot_foldl_char (s : ℚ) (items : List TimedSample) (st : PlotState) :
    items.foldl (update_plot_step s) st =
      ⟨List.foldl (dequeAppend MAX_DATA_LEN) st.time_data
          (items.map (fun p => p.2 - s)),
        List.foldl (dequeAppend MAX_DATA_LEN) st.hs_data (sigVals BIOSIG.HS items),
        List.foldl (dequeAppend MAX_DATA_LEN) st.bp_data (sigVals BIOSIG.BP items),
        st.hs_rows ++ (sigItems BIOSIG.HS items).map (fun p => (p.2 - s, p.1.2)),
        st.bp_rows ++ (sigItems BIOSIG.BP items).map (fun p => (p.2 - s, p.1.2))⟩ := by
  induction items generalizing st with
  | nil => simp [sigVals, sigItems]
  | cons p ps ih =>
    obtain ⟨⟨k, v⟩, t⟩ := p
    rw [List.foldl_cons, ih]
    match k with
    | none =>
      simp [update_plot_step, sigVals, sigItems, isSig, List.filter_cons]
    | some BIOSIG.HS =>
      simp [update_plot_step, sigVals, sigItems, isSig, List.filter_cons]
    | some BIOSIG.BP =>
      simp [update_plot_step, sigVals, sigItems, isSig, List.filter_cons]

/-- The channel never invents, drops or reorders items: along any
schedule, the received history, queue contents and unsent items
concatenate to the original send list. -/
theorem chanStep_foldl_concat (sched : List Bool) (st : ChanState) :
    (sched.foldl chanStep st).received ++ (sched.foldl chanStep st).queue ++
        (sched.foldl chanStep st).pending
      = st.received ++ st.queue ++ st.pending := by
  induction sched generalizing st with
  | nil => rfl
  | cons b bs ih =>
    rw [List.foldl_cons, ih]
    obtain ⟨pend, q, recv⟩ := st
    cases b with
    | false =>
      cases q with
      | nil => rfl
      | cons x rest => simp [chanStep, List.append_assoc]
    | true =>
      cases pend with
      | nil => rfl
      | cons x rest => simp [chanStep, List.append_assoc]

/-- A fold that keeps the latest element satisfying p computes the last
element of the filtered list, falling back to the accumulator. -/
theorem foldl_last_match {α : Type} (p : α → Prop) [DecidablePred p]
    (l : List α) (acc : Option α) :
    l.foldl (fun server device => if p device then some device else server) acc
      = ((l.filter (fun a => decide (p a))).getLast?).or acc := by
  induction l using List.reverseRecOn generalizing acc with
  | nil => rfl
  | append_singleton ys x ih =>
    rw [List.foldl_append, List.foldl_cons, List.foldl_nil, List.filter_append]
    by_cases h : p x
    · rw [if_pos h]
      have hfx : List.filter (fun a => decide (p a)) [x] = [x] := by simp [h]
      rw [hfx, List.getLast?_concat]
      rfl
    · rw [if_neg h, ih]
      have hfx : List.filter (fun a => decide (p a)) [x] = [] := by simp [h]
      rw [hfx, List.append_nil]

/-- C1 (code evaluation at the failing input): in v1, a notification
raised by the BloodPressure characteristic with payload [1] at elapsed 2
is appended to the HeartSound sink while the BloodPressure sink stays
empty — bt_client.py line 40 writes hs_log_writer in the BP branch —
violating the invariant that every Reading of kind K is written to the
sink for K and to no other. -/
theorem v1_bp_record_written_to_hs_sink :
    (notification_callback_v1 ⟨HS_CHAR_UUID⟩ ⟨BP_CHAR_UUID⟩ ⟨[], []⟩
        ⟨BP_CHAR_UUID⟩ [1] 2).hs_rows = [(2, 1)]
    ∧ (notification_callback_v1 ⟨HS_CHAR_UUID⟩ ⟨BP_CHAR_UUID⟩ ⟨[], []⟩
        ⟨BP_CHAR_UUID⟩ [1] 2).bp_rows = [] := by
  decide

/-- C2: for every Reading the scaled value equals raw_value / 4096.0 *
5.0 with VREF = 5.0 — exactly, hence within tolerance 1e-9 — and the
y-series handed to the renderer applies precisely this map to the
buffered raw values of each kind. -/
theorem scaled_value_eq_vref_formula (raw : ℕ) (st : PlotState) :
    scaledValue raw = (raw : ℚ) / 4096 * 5
    ∧ |scaledValue raw - (raw : ℚ) / 4096 * 5| ≤ 1 / 1000000000
    ∧ (hs_snapshot st).2 = st.hs_data.map (fun v : ℕ => (v : ℚ) / 4096 * 5)
    ∧ (bp_snapshot st).2 = st.bp_data.map (fun v : ℕ => (v : ℚ) / 4096 * 5) := by
  refine ⟨rfl, ?_, rfl, rfl⟩
  simp only [scaledValue, VREF]
  rw [sub_self, abs_zero]
  norm_num

/-- C3: decoding interprets any payload as an unsigned little-endian
integer over the full delivered length (it agrees with the base-256
positional value of the byte list) and always succeeds — the callback
enqueues exactly one item for every payload; a zero-length payload
decodes to raw 0 and scaled 0, is enqueued like any other item, and the
consumer persists it as an ordinary row. -/
theorem decode_le_total_zero_len (uuid : String) (data : List ℕ)
    (channel : List Sample) :
    notification_callback_v2 channel uuid data
        = channel ++ [(classifySig uuid, intFromBytesLE data)]
    ∧ intFromBytesLE data = Nat.ofDigits 256 data
    ∧ intFromBytesLE [] = 0
    ∧ scaledValue 0 = 0
    ∧ notification_callback_v2 channel HS_CHAR_UUID []
        = channel ++ [(some BIOSIG.HS, 0)]
    ∧ (∀ (s t : ℚ) (st : PlotState),
        (update_plot_step s st ((some BIOSIG.HS, 0), t)).hs_rows
          = st.hs_rows ++ [(t - s, 0)]) := by
  refine ⟨rfl, ?_, rfl, by norm_num [scaledValue], ?_, fun s t st => rfl⟩
  · induction data with
    | nil => rfl
    | cons b rest ih => rw [intFromBytesLE, ih, Nat.ofDigits_cons]
  · simp [notification_callback_v2, classifySig, intFromBytesLE]

/-- C4: for each signal kind the display deque never holds more than 200
entries, and after pushing any sequence of samples it holds exactly the
most recent values of its kind in arrival order, the oldest FIFO-evicted
(the shared time deque obeys the same bound). -/
theorem window_buffers_bounded_fifo (s : ℚ) (items : List TimedSample) :
    (update_plot_run s items).hs_data
        = (sigVals BIOSIG.HS items).drop
            ((sigVals BIOSIG.HS items).length - MAX_DATA_LEN)
    ∧ (update_plot_run s items).bp_data
        = (sigVals BIOSIG.BP items).drop
            ((sigVals BIOSIG.BP items).length - MAX_DATA_LEN)
    ∧ (update_plot_run s items).hs_data.length ≤ MAX_DATA_LEN
    ∧ (update_plot_run s items).bp_data.length ≤ MAX_DATA_LEN
    ∧ (update_plot_run s items).time_data.length ≤ MAX_DATA_LEN := by
  simp only [update_plot_run, update_plot_foldl_char, initPlotState,
    foldl_dequeAppend_nil, List.length_drop, MAX_DATA_LEN]
  refine ⟨trivial, trivial, by omega, by omega, by omega⟩

/-- C8 (code evaluation at the failing input): on a scan with zero
matching peripherals, both sink files have nevertheless been created —
v1 opens them at module import, v2 at consumer-thread start — and no
connection is ever attempted, contradicting the claim that a failed
discovery leaves the filesystem unchanged. -/
theorem sinks_created_despite_failed_discovery :
    discover_server [] = none
    ∧ program_fs_events []
        = [FsEvent.openSink BIOSIG.HS, FsEvent.openSink BIOSIG.BP]
    ∧ FsEvent.connect ∉ program_fs_events []
    ∧ FsEvent.openSink BIOSIG.HS ∈ program_fs_events []
    ∧ FsEvent.openSink BIOSIG.BP ∈ program_fs_events [] := by
  decide

/-- C5 counterexample: after five HeartSound and three BloodPressure
readings, the x-series of the HeartSound snapshot has length 8, not 5 —
the time deque is shared between kinds, so the HeartSound snapshot is
affected by BloodPressure arrivals (its y-series does have length 5). -/
theorem snapshot_shared_time_counterexample :
    ((hs_snapshot (update_plot_run 0 fiveHsThreeBp)).1).length = 8
    ∧ ¬(((hs_snapshot (update_plot_run 0 fiveHsThreeBp)).1).length = 5)
    ∧ ((hs_snapshot (update_plot_run 0 fiveHsThreeBp)).2).length = 5
    ∧ ((bp_snapshot (update_plot_run 0 fiveHsThreeBp)).2).length = 3 := by
  have h8 : ((hs_snapshot (update_plot_run 0 fiveHsThreeBp)).1).length = 8 := rfl
  exact ⟨h8, by rw [h8]; decide, rfl, rfl⟩

/-- C5 (amended): each kind has its own value deque — after five
HeartSound readings with values a1..a5 and then three BloodPressure
readings with values b1..b3, the HeartSound value deque is exactly
[a1..a5] and the BloodPressure value deque exactly [b1..b3], each in
arrival order and holding only its own kind's values — but the time
deque is shared, so the snapshot of either kind carries all eight
arrival deltas as its x-series rather than only its own kind's times. -/
theorem per_kind_value_buffers_shared_time (s : ℚ) (a1 a2 a3 a4 a5 b1 b2 b3 : ℕ)
    (t1 t2 t3 t4 t5 t6 t7 t8 : ℚ) :
    update_plot_run s
      [((some BIOSIG.HS, a1), t1), ((some BIOSIG.HS, a2), t2),
       ((some BIOSIG.HS, a3), t3), ((some BIOSIG.HS, a4), t4),
       ((some BIOSIG.HS, a5), t5), ((some BIOSIG.BP, b1), t6),
       ((some BIOSIG.BP, b2), t7), ((some BIOSIG.BP, b3), t8)]
      = ⟨[t1 - s, t2 - s, t3 - s, t4 - s, t5 - s, t6 - s, t7 - s, t8 - s],
          [a1, a2, a3, a4, a5], [b1, b2, b3],
          [(t1 - s, a1), (t2 - s, a2), (t3 - s, a3), (t4 - s, a4), (t5 - s, a5)],
          [(t6 - s, b1), (t7 - s, b2), (t8 - s, b3)]⟩
    ∧ (∀ st : PlotState, (hs_snapshot st).1 = st.time_data
        ∧ (bp_snapshot st).1 = st.time_data
        ∧ (hs_snapshot st).2 = st.hs_data.map scaledValue
        ∧ (bp_snapshot st).2 = st.bp_data.map scaledValue) := by
  refine ⟨?_, fun st => ⟨rfl, rfl, rfl, rfl⟩⟩
  rw [update_plot_run, update_plot_foldl_char]
  norm_num [initPlotState, sigVals, sigItems, isSig, dequeAppend, MAX_DATA_LEN,
    hs_ne_bp, bp_ne_hs]

/-- C6: the transfer channel is FIFO for its single producer and single
consumer — under every interleaving of send and receive steps, the
received sequence is exactly a prefix of the send sequence (no
reordering, duplication or loss; unconsumed items remain queued or
pending), and restricting to the items of any kind, the one produced
first is consumed first. -/
theorem channel_fifo_order (sent : List Sample) (sched : List Bool) :
    (chanRun sent sched).received ++ (chanRun sent sched).queue ++
        (chanRun sent sched).pending = sent
    ∧ (chanRun sent sched).received
        = sent.take (chanRun sent sched).received.length
    ∧ ∀ p : Sample → Bool,
        (chanRun sent sched).received.filter p
          = (sent.filter p).take
              ((chanRun sent sched).received.filter p).length := by
  have hconcat : (chanRun sent sched).received ++ (chanRun sent sched).queue ++
      (chanRun sent sched).pending = sent := by
    have h := chanStep_foldl_concat sched ⟨sent, [], []⟩
    simpa [chanRun] using h
  have hassoc : (chanRun sent sched).received ++ ((chanRun sent sched).queue ++
      (chanRun sent sched).pending) = sent := by
    rw [← List.append_assoc]
    exact hconcat
  have hpre : ∀ (l1 l2 s0 : List Sample), l1 ++ l2 = s0 → l1 = s0.take l1.length := by
    intro l1 l2 s0 h
    rw [← h, List.take_left]
  refine ⟨hconcat, hpre _ _ _ hassoc, ?_⟩
  intro p
  exact hpre ((chanRun sent sched).received.filter p)
    (((chanRun sent sched).queue ++ (chanRun sent sched).pending).filter p)
    (sent.filter p)
    (by rw [← List.filter_append]; exact congrArg (List.filter p) hassoc)

/-- C7: discovery returns the peripheral whose advertised name equals
the target name exactly, the last such one encountered during the scan
when several match; and when none matches, main returns before any
connection is attempted. -/
theorem discover_last_match_aborts (devices : List Device) :
    discover_server devices
        = (devices.filter (fun d => decide (d.name = SERVER_NAME))).getLast?
    ∧ (discover_server devices = none →
        main_v2_outcome devices = MainOutcome.aborted) := by
  constructor
  · have h : discover_server devices
        = ((devices.filter (fun d => decide (d.name = SERVER_NAME))).getLast?).or
            none :=
      foldl_last_match (fun d : Device => d.name = SERVER_NAME) devices none
    rw [h]
    cases (devices.filter fun d => decide (d.name = SERVER_NAME)).getLast? <;> rfl
  · intro h0
    simp [main_v2_outcome, h0]

/-- Witness for C7 at a concrete scan result with no matching name. -/
theorem discover_last_match_aborts_witness :
    main_v2_outcome [Device.mk "OTHER"] = MainOutcome.aborted :=
  (discover_last_match_aborts [Device.mk "OTHER"]).2 (by decide)

/-- C9 counterexample: with the consumer thread starting at clock 0 and
the first successful subscription completing at clock 10, a reading
consumed at clock 11 is stamped 11 by v2 — update_plot measures from
its own start (line 124) — whereas measuring from the first successful
subscription, as the claim defines session start, would stamp it 1. -/
theorem elapsed_origin_counterexample :
    v2_elapsed 0 11 = 11 ∧ spec_elapsed 10 11 = 1
    ∧ ¬(v2_elapsed 0 11 = spec_elapsed 10 11) := by
  refine ⟨by norm_num [v2_elapsed], by norm_num [spec_elapsed], ?_⟩
  norm_num [v2_elapsed, spec_elapsed]

/-- C9 (amended): v2 stamps each consumed reading with the consumption
clock minus the consumer thread's start time — not the time of the
first successful subscription — and, the clock being monotone, the
elapsed stamps written to each kind's sink are monotonically
non-decreasing per kind. -/
theorem elapsed_monotone_per_kind (s : ℚ) (items : List TimedSample)
    (hmono : List.Pairwise (fun a b => a ≤ b) (items.map (fun p => p.2))) :
    List.Pairwise (fun a b => a ≤ b)
        (((update_plot_run s items).hs_rows).map (fun r => r.1))
    ∧ List.Pairwise (fun a b => a ≤ b)
        (((update_plot_run s items).bp_rows).map (fun r => r.1))
    ∧ (∀ c t : ℚ, v2_elapsed c t = t - c) := by
  have hitems : List.Pairwise (fun p q : TimedSample => p.2 ≤ q.2) items :=
    List.pairwise_map.mp hmono
  have key : ∀ k : BIOSIG, List.Pairwise (fun a b => a ≤ b)
      ((sigItems k items).map (fun p => p.2 - s)) := by
    intro k
    rw [List.pairwise_map]
    have hsub : List.Sublist (sigItems k items) items := List.filter_sublist items
    exact (hitems.sublist hsub).imp (fun h => sub_le_sub_right h s)
  refine ⟨?_, ?_, fun c t => rfl⟩
  · have hmap : ((update_plot_run s items).hs_rows).map (fun r => r.1)
        = (sigItems BIOSIG.HS items).map (fun p => p.2 - s) := by
      rw [update_plot_run, update_plot_foldl_char]
      simp [initPlotState, List.map_map, Function.comp]
    rw [hmap]
    exact key BIOSIG.HS
  · have hmap : ((update_plot_run s items).bp_rows).map (fun r => r.1)
        = (sigItems BIOSIG.BP items).map (fun p => p.2 - s) := by
      rw [update_plot_run, update_plot_foldl_char]
      simp [initPlotState, List.map_map, Function.comp]
    rw [hmap]
    exact key BIOSIG.BP

/-- Witness for C9 on the concrete five-plus-three run with clock values
1 through 8. -/
theorem elapsed_monotone_per_kind_witness :
    List.Pairwise (fun a b => a ≤ b)
      (((update_plot_run 0 fiveHsThreeBp).hs_rows).map (fun r => r.1)) :=
  (elapsed_monotone_per_kind 0 fiveHsThreeBp (by decide)).1

/-- C10: a notification raised by a characteristic matching neither the
HeartSound nor the BloodPressure uuid is not rejected — the v2 callback
enqueues (None, raw value) — and on consuming it the loop appends the
arrival delta to the shared time deque while writing no sink row and
touching neither per-kind value deque, silently dropping the value. -/
theorem unknown_uuid_value_dropped (uuid : String) (channel : List Sample)
    (data : List ℕ) (h1 : uuid ≠ HS_CHAR_UUID) (h2 : uuid ≠ BP_CHAR_UUID) :
    notification_callback_v2 channel uuid data
        = channel ++ [(none, intFromBytesLE data)]
    ∧ ∀ (s t : ℚ) (v : ℕ) (st : PlotState),
        update_plot_step s st ((none, v), t)
          = ⟨dequeAppend MAX_DATA_LEN st.time_data (t - s), st.hs_data,
              st.bp_data, st.hs_rows, st.bp_rows⟩ := by
  refine ⟨?_, fun s t v st => rfl⟩
  simp [notification_callback_v2, classifySig, h1, h2]

/-- Witness for C10 at a concrete unknown uuid and payload. -/
theorem unknown_uuid_value_dropped_witness :
    notification_callback_v2 [] "abc" [7]
      = [] ++ [(none, intFromBytesLE [7])] :=
  (unknown_uuid_value_dropped "abc" [] [7] (by decide) (by decide)).1

end BtClient
